import Mathlib

/-!
A shallow embedding of `rqalpha/model/booking.py`: the position-booking
ledger (`BookingModel`, `BookingPositions`, `BookingPosition`).

Modelling conventions:
* Python floats for quantities and prices become `ℚ` (exact arithmetic);
  field division on `ℚ` returns `0` on a zero denominator.
* Python exceptions become a `State × Option String` result: the first
  component is the object state at the moment the exception (if any) is
  raised — in this file a raise is never preceded by a field mutation of
  the raising position, mirroring the source branch structure.
* The data proxy (`self._data_proxy`), held by the Python objects, is an
  external read-only collaborator; it is passed explicitly as a record of
  functions instead of being stored in the state, so that states keep
  decidable equality.
* Python `dict`s become association lists (`List (Nat × _)`); `dict.pop`
  and `__missing__` become explicit list operations. Instrument
  identifiers (`order_book_id`), execution ids and dates are `Nat`.
-/

namespace Booking

/-- Modelled from the spec: the SIDE enumeration lives in
`rqalpha/const.py`, which is not part of the provided sources. The spec
lists the sides `BUY` and `SELL` for inbound trades, and its error
taxonomy speaks of an "unknown side value", so one extra constructor
stands for any side value other than `BUY` and `SELL`. -/
inductive SIDE where
  | BUY
  | SELL
  | UNKNOWN
deriving DecidableEq

/-- Modelled from the spec: the POSITION_EFFECT enumeration lives in
`rqalpha/const.py`, which is not part of the provided sources; the spec
lists `OPEN | CLOSE | CLOSE_TODAY | none` as the possible position
effects of an inbound trade (absence is `Option.none` here). -/
inductive POSITION_EFFECT where
  | OPEN
  | CLOSE
  | CLOSE_TODAY
deriving DecidableEq

/-- `POSITION_DIRECTION.LONG / SHORT` from `rqalpha/const.py`. -/
inductive POSITION_DIRECTION where
  | LONG
  | SHORT
deriving DecidableEq

/-- The opposite direction bucket (used only to state frame properties). -/
def POSITION_DIRECTION.other : POSITION_DIRECTION → POSITION_DIRECTION
  | .LONG => .SHORT
  | .SHORT => .LONG

/-- A trade record, with the fields `booking.py` reads:
`exec_id`, `order_book_id`, `side`, `position_effect`, `last_price`,
`last_quantity`. -/
structure Trade where
  exec_id : Nat
  order_book_id : Nat
  side : SIDE
  position_effect : Option POSITION_EFFECT
  last_price : ℚ
  last_quantity : ℚ
deriving DecidableEq

/-- `Instrument.DEFAULT_DE_LISTED_DATE`, the sentinel "never delisted"
date (dates are ordinals here). -/
def DEFAULT_DE_LISTED_DATE : Nat := 29991231

/-- The slice of instrument metadata `booking.py` reads:
`de_listed_date` (none models Python `None`) and `type`. -/
structure Instrument where
  de_listed_date : Option Nat
  type : String
deriving DecidableEq

/-- The read-only reference-data provider interface consumed by
`booking.py` (`self._data_proxy`). `history_close obid dt` stands for
`history_bars(order_book_id, 1, "1d", "close", dt)[0]`. -/
structure DataProxy where
  get_next_trading_date : Nat → Nat
  get_previous_trading_date : Nat → Nat
  get_split_by_ex_date : Nat → Nat → Option ℚ
  instruments : Nat → Instrument
  get_settle_price : Nat → Nat → ℚ
  history_close : Nat → Nat → ℚ

/-- The mutable state of a `BookingPosition`; `trades` is the
`exec_id ↦ trade` cache `self._trades`. -/
structure BookingPosition where
  order_book_id : Nat
  direction : POSITION_DIRECTION
  old_quantity : ℚ
  logical_old_quantity : ℚ
  today_quantity : ℚ
  avg_price : ℚ
  prev_settlement_price : ℚ
  trades : List (Nat × Trade)
deriving DecidableEq

/-- `BookingPosition.__init__` with the default arguments, as invoked by
`BookingPositions.__missing__` (note `_logical_old_quantity` starts at
`old_quantity`, i.e. `0`). -/
def BookingPosition.new (order_book_id : Nat) (direction : POSITION_DIRECTION) :
    BookingPosition :=
  { order_book_id := order_book_id
    direction := direction
    old_quantity := 0
    logical_old_quantity := 0
    today_quantity := 0
    avg_price := 0
    prev_settlement_price := 0
    trades := [] }

/-- `BookingPosition.quantity`: `old_quantity + today_quantity`. -/
def BookingPosition.quantity (p : BookingPosition) : ℚ :=
  p.old_quantity + p.today_quantity

/-- `BookingPosition._get_position_effect(side, position_effect)`: when
the trade carries no effect, infer OPEN for BUY and CLOSE for SELL,
otherwise fall through and return `position_effect` unchanged (hence
`none` again when the side is neither BUY nor SELL). -/
def get_position_effect (side : SIDE) (position_effect : Option POSITION_EFFECT) :
    Option POSITION_EFFECT :=
  match position_effect with
  | none =>
    match side with
    | SIDE.BUY => some POSITION_EFFECT.OPEN
    | SIDE.SELL => some POSITION_EFFECT.CLOSE
    | SIDE.UNKNOWN => none
  | some e => some e

/-- `BookingPosition.apply_trade(trade)`. The second component is the
raised `RuntimeError` message, `none` on normal return; the raise in the
unknown-effect branch precedes every field mutation, so the state is
returned unchanged there. Division is `ℚ` field division (`x / 0 = 0`),
standing in for Python float division. -/
def BookingPosition.apply_trade (p : BookingPosition) (t : Trade) :
    BookingPosition × Option String :=
  if (p.trades.lookup t.exec_id).isSome then (p, none)
  else
    match get_position_effect t.side t.position_effect with
    | some POSITION_EFFECT.OPEN =>
      let avg :=
        if p.quantity < 0 then
          if t.last_quantity ≤ -1 * p.quantity then (0 : ℚ) else t.last_price
        else
          (p.quantity * p.avg_price + t.last_quantity * t.last_price) /
            (p.quantity + t.last_quantity)
      ({ p with
          avg_price := avg
          today_quantity := p.today_quantity + t.last_quantity
          trades := (t.exec_id, t) :: p.trades }, none)
    | some POSITION_EFFECT.CLOSE_TODAY =>
      ({ p with
          today_quantity := p.today_quantity - t.last_quantity
          trades := (t.exec_id, t) :: p.trades }, none)
    | some POSITION_EFFECT.CLOSE =>
      let old := p.old_quantity - t.last_quantity
      let p1 :=
        if old < 0 then
          { p with old_quantity := 0, today_quantity := p.today_quantity + old }
        else
          { p with old_quantity := old }
      ({ p1 with trades := (t.exec_id, t) :: p.trades }, none)
    | none => (p, some "Unknown side when apply trade: ")

/-- `BookingPosition.apply_settlement(trading_date)`. The Python guard
`if split_ratio:` is truthy only for a non-`None`, nonzero ratio. -/
def BookingPosition.apply_settlement (dp : DataProxy) (p : BookingPosition)
    (trading_date : Nat) : BookingPosition :=
  let next_trading_date := dp.get_next_trading_date trading_date
  let old1 := p.old_quantity + p.today_quantity
  let adjusted :=
    match dp.get_split_by_ex_date p.order_book_id next_trading_date with
    | some r => if r = 0 then (old1, p.avg_price) else (old1 * r, p.avg_price / r)
    | none => (old1, p.avg_price)
  let prev :=
    if (dp.instruments p.order_book_id).type == "Future" then
      dp.get_settle_price p.order_book_id trading_date
    else
      dp.history_close p.order_book_id trading_date
  { p with
      old_quantity := adjusted.1
      logical_old_quantity := old1
      today_quantity := 0
      avg_price := adjusted.2
      trades := []
      prev_settlement_price := prev }

/-- `BookingPosition.is_de_listed(trading_date)`. -/
def BookingPosition.is_de_listed (dp : DataProxy) (p : BookingPosition)
    (trading_date : Nat) : Bool :=
  let instrument := dp.instruments p.order_book_id
  match instrument.de_listed_date with
  | none => false
  | some d =>
    if d = DEFAULT_DE_LISTED_DATE then false
    else if instrument.type == "Future" then decide (d ≤ trading_date)
    else decide (dp.get_previous_trading_date d ≤ trading_date)

/-- The ledger state of `BookingModel`: one bucket per direction plus
the global `backward_trade_set` of applied execution ids. -/
structure BookingModel where
  long_positions : List (Nat × BookingPosition)
  short_positions : List (Nat × BookingPosition)
  backward_trade_set : List Nat
deriving DecidableEq

/-- `self._positions_dict[direction]`. -/
def BookingModel.positions (l : BookingModel) :
    POSITION_DIRECTION → List (Nat × BookingPosition)
  | .LONG => l.long_positions
  | .SHORT => l.short_positions

/-- Replace one direction bucket. -/
def BookingModel.setBucket (l : BookingModel) (d : POSITION_DIRECTION)
    (b : List (Nat × BookingPosition)) : BookingModel :=
  match d with
  | .LONG => { l with long_positions := b }
  | .SHORT => { l with short_positions := b }

/-- `BookingPositions.__missing__` / `get_or_create`: reading a missing
key inserts a fresh default position; returns the position and the
(possibly extended) bucket. -/
def getOrCreate (bucket : List (Nat × BookingPosition)) (obid : Nat)
    (d : POSITION_DIRECTION) : BookingPosition × List (Nat × BookingPosition) :=
  match bucket.lookup obid with
  | some p => (p, bucket)
  | none => (BookingPosition.new obid d, (obid, BookingPosition.new obid d) :: bucket)

/-- In Python the dict holds a reference to the mutated position object;
here the binding for `obid` is replaced by the updated state. -/
def updateBucket (bucket : List (Nat × BookingPosition)) (obid : Nat)
    (p : BookingPosition) : List (Nat × BookingPosition) :=
  bucket.map fun kp => if kp.1 = obid then (obid, p) else kp

/-- Bucket selection of `BookingModel.apply_trade`: the if/elif chain on
`trade.position_effect` and `trade.side`; the final `else` (no explicit
position effect) always selects the LONG bucket. -/
def selectDirection (t : Trade) : Except String POSITION_DIRECTION :=
  match t.position_effect with
  | some POSITION_EFFECT.OPEN =>
    match t.side with
    | SIDE.BUY => .ok POSITION_DIRECTION.LONG
    | SIDE.SELL => .ok POSITION_DIRECTION.SHORT
    | SIDE.UNKNOWN => .error "unknown side, trade"
  | some POSITION_EFFECT.CLOSE | some POSITION_EFFECT.CLOSE_TODAY =>
    match t.side with
    | SIDE.BUY => .ok POSITION_DIRECTION.SHORT
    | SIDE.SELL => .ok POSITION_DIRECTION.LONG
    | SIDE.UNKNOWN => .error "unknown side, trade"
  | none => .ok POSITION_DIRECTION.LONG

/-- `BookingModel.apply_trade(trade)`: idempotency gate on
`backward_trade_set`, bucket selection, get-or-create of the position
(`__missing__` inserts before the inner call, so the insertion survives
an inner raise), delegation to `BookingPosition.apply_trade`, and
finally `backward_trade_set.add` — skipped when the inner call raised. -/
def BookingModel.apply_trade (l : BookingModel) (t : Trade) :
    BookingModel × Option String :=
  if t.exec_id ∈ l.backward_trade_set then (l, none)
  else
    match selectDirection t with
    | .error e => (l, some e)
    | .ok d =>
      let pb := getOrCreate (l.positions d) t.order_book_id d
      let res := pb.1.apply_trade t
      let l1 := l.setBucket d (updateBucket pb.2 t.order_book_id res.1)
      match res.2 with
      | some e => (l1, some e)
      | none => ({ l1 with backward_trade_set := t.exec_id :: l1.backward_trade_set }, none)

/-- One bucket pass of `BookingModel.apply_settlement`: positions that
are delisted or flat go on `delete_list` (judged on their pre-settlement
state) and are popped after the scan; every other position is settled in
place. Because each decision reads only that position's own prior state,
the collect-then-pop of the source equals this single `filterMap`. -/
def settleBucket (dp : DataProxy) (trading_date : Nat)
    (b : List (Nat × BookingPosition)) : List (Nat × BookingPosition) :=
  b.filterMap fun kp =>
    if kp.2.is_de_listed dp trading_date || kp.2.quantity == 0 then none
    else some (kp.1, kp.2.apply_settlement dp trading_date)

/-- `BookingModel.apply_settlement(trading_date)`: both buckets scanned;
`backward_trade_set` untouched. -/
def BookingModel.apply_settlement (dp : DataProxy) (l : BookingModel)
    (trading_date : Nat) : BookingModel :=
  { l with
      long_positions := settleBucket dp trading_date l.long_positions
      short_positions := settleBucket dp trading_date l.short_positions }

/-! ### Helper lemmas -/

theorem lookup_none_of_not_mem_fst {β : Type} (b : List (Nat × β)) (k : Nat)
    (h : k ∉ b.map Prod.fst) : b.lookup k = none := by
  induction b with
  | nil => rfl
  | cons hd tl ih =>
    obtain ⟨k1, v⟩ := hd
    simp only [List.map_cons, List.mem_cons] at h
    push_neg at h
    have hne : (k == k1) = false := by simpa using h.1
    simp [List.lookup, hne, ih h.2]

theorem lookup_cons_self {β : Type} (k : Nat) (v : β) (tl : List (Nat × β)) :
    ((k, v) :: tl).lookup k = some v := by
  simp [List.lookup]

/-! ### Per-claim theorems -/

/-- Claim C1: for every position and trade whose resolved effect is CLOSE
(and which is not already cached), `apply_trade` subtracts the trade
quantity from `old_quantity`; when the result is negative the negative
remainder is added to `today_quantity` and `old_quantity` is clamped to
`0` (close-old-before-today). In particular a position with
`old_quantity = 5` and `today_quantity = 3` receiving a CLOSE of
quantity `6` ends with `old_quantity = 0` and `today_quantity = 2`. -/
theorem close_old_before_today (p : BookingPosition) (t : Trade)
    (hnew : p.trades.lookup t.exec_id = none)
    (heff : get_position_effect t.side t.position_effect = some POSITION_EFFECT.CLOSE) :
    ((p.apply_trade t).1.old_quantity =
      if p.old_quantity - t.last_quantity < 0 then 0
      else p.old_quantity - t.last_quantity) ∧
    ((p.apply_trade t).1.today_quantity =
      if p.old_quantity - t.last_quantity < 0 then
        p.today_quantity + (p.old_quantity - t.last_quantity)
      else p.today_quantity) ∧
    (p.apply_trade t).2 = none ∧
    (BookingPosition.apply_trade
        { BookingPosition.new 1 POSITION_DIRECTION.LONG with
            old_quantity := 5, logical_old_quantity := 5, today_quantity := 3 }
        ⟨100, 1, SIDE.SELL, some POSITION_EFFECT.CLOSE, 10, 6⟩).1.old_quantity = 0 ∧
    (BookingPosition.apply_trade
        { BookingPosition.new 1 POSITION_DIRECTION.LONG with
            old_quantity := 5, logical_old_quantity := 5, today_quantity := 3 }
        ⟨100, 1, SIDE.SELL, some POSITION_EFFECT.CLOSE, 10, 6⟩).1.today_quantity = 2 := by
  refine ⟨?_, ?_, ?_, ?_, ?_⟩
  · simp only [BookingPosition.apply_trade, hnew, heff, Option.isSome_none,
      Bool.false_eq_true, if_false]
    split <;> simp_all
  · simp only [BookingPosition.apply_trade, hnew, heff, Option.isSome_none,
      Bool.false_eq_true, if_false]
    split <;> simp_all
  · simp only [BookingPosition.apply_trade, hnew, heff, Option.isSome_none,
      Bool.false_eq_true, if_false]
  · norm_num [BookingPosition.apply_trade, get_position_effect,
      BookingPosition.new, List.lookup]
  · norm_num [BookingPosition.apply_trade, get_position_effect,
      BookingPosition.new, List.lookup]

/-- Witness for claim C1 at a concrete input. -/
theorem close_old_before_today_witness :
    ((BookingPosition.new 1 POSITION_DIRECTION.LONG).trades.lookup 100 = none) ∧
    (BookingPosition.apply_trade (BookingPosition.new 1 POSITION_DIRECTION.LONG)
        ⟨100, 1, SIDE.SELL, some POSITION_EFFECT.CLOSE, 10, 6⟩).2 = none :=
  ⟨rfl, (close_old_before_today (BookingPosition.new 1 POSITION_DIRECTION.LONG)
      ⟨100, 1, SIDE.SELL, some POSITION_EFFECT.CLOSE, 10, 6⟩ rfl rfl).2.2.1⟩

/-- Claim C2: for every position and trade whose resolved effect is OPEN
(and which is not already cached), `apply_trade` updates `avg_price`
from the pre-trade quantity: on a negative quantity it becomes `0` when
the trade quantity at most covers the deficit and the trade price
otherwise, and on a non-negative quantity it becomes the
quantity-weighted average; then `today_quantity` grows by the trade
quantity (`old_quantity` untouched). In particular opening 10 units at
price 100 and then 10 at price 200 on a flat position yields
`avg_price = 150`. -/
theorem open_avg_price_update (p : BookingPosition) (t : Trade)
    (hnew : p.trades.lookup t.exec_id = none)
    (heff : get_position_effect t.side t.position_effect = some POSITION_EFFECT.OPEN) :
    ((p.apply_trade t).1.avg_price =
      if p.quantity < 0 then
        if t.last_quantity ≤ -p.quantity then 0 else t.last_price
      else
        (p.quantity * p.avg_price + t.last_quantity * t.last_price) /
          (p.quantity + t.last_quantity)) ∧
    (p.apply_trade t).1.today_quantity = p.today_quantity + t.last_quantity ∧
    (p.apply_trade t).1.old_quantity = p.old_quantity ∧
    (p.apply_trade t).2 = none ∧
    ((BookingPosition.apply_trade
        (BookingPosition.apply_trade (BookingPosition.new 1 POSITION_DIRECTION.LONG)
          ⟨1, 1, SIDE.BUY, some POSITION_EFFECT.OPEN, 100, 10⟩).1
        ⟨2, 1, SIDE.BUY, some POSITION_EFFECT.OPEN, 200, 10⟩).1.avg_price = 150) := by
  refine ⟨?_, ?_, ?_, ?_, ?_⟩
  · simp only [BookingPosition.apply_trade, hnew, heff, Option.isSome_none,
      Bool.false_eq_true, if_false, neg_one_mul]
  · simp [BookingPosition.apply_trade, hnew, heff]
  · simp [BookingPosition.apply_trade, hnew, heff]
  · simp [BookingPosition.apply_trade, hnew, heff]
  · norm_num [BookingPosition.apply_trade, get_position_effect,
      BookingPosition.new, BookingPosition.quantity, List.lookup]
    rfl

/-- Witness for claim C2 at a concrete input. -/
theorem open_avg_price_update_witness :
    ((BookingPosition.new 1 POSITION_DIRECTION.LONG).trades.lookup 1 = none) ∧
    (BookingPosition.apply_trade (BookingPosition.new 1 POSITION_DIRECTION.LONG)
        ⟨1, 1, SIDE.BUY, some POSITION_EFFECT.OPEN, 100, 10⟩).2 = none :=
  ⟨rfl, (open_avg_price_update (BookingPosition.new 1 POSITION_DIRECTION.LONG)
      ⟨1, 1, SIDE.BUY, some POSITION_EFFECT.OPEN, 100, 10⟩ rfl rfl).2.2.2.1⟩

/-- Claim C9: for every position and trade whose resolved effect is
CLOSE_TODAY (and which is not already cached), `apply_trade` decreases
`today_quantity` by the trade quantity with no clamping and no spill
into `old_quantity`, and leaves `old_quantity`,
`logical_old_quantity` and `avg_price` unchanged; a concrete instance
with `today_quantity = 1` closing `5` today ends at
`today_quantity = -4` with `old_quantity` still `2`. -/
theorem close_today_effect (p : BookingPosition) (t : Trade)
    (hnew : p.trades.lookup t.exec_id = none)
    (heff : get_position_effect t.side t.position_effect = some POSITION_EFFECT.CLOSE_TODAY) :
    (p.apply_trade t).1.today_quantity = p.today_quantity - t.last_quantity ∧
    (p.apply_trade t).1.old_quantity = p.old_quantity ∧
    (p.apply_trade t).1.logical_old_quantity = p.logical_old_quantity ∧
    (p.apply_trade t).1.avg_price = p.avg_price ∧
    (p.apply_trade t).2 = none ∧
    (BookingPosition.apply_trade
        { BookingPosition.new 1 POSITION_DIRECTION.LONG with
            old_quantity := 2, logical_old_quantity := 2, today_quantity := 1 }
        ⟨7, 1, SIDE.SELL, some POSITION_EFFECT.CLOSE_TODAY, 10, 5⟩).1.today_quantity = -4 ∧
    (BookingPosition.apply_trade
        { BookingPosition.new 1 POSITION_DIRECTION.LONG with
            old_quantity := 2, logical_old_quantity := 2, today_quantity := 1 }
        ⟨7, 1, SIDE.SELL, some POSITION_EFFECT.CLOSE_TODAY, 10, 5⟩).1.old_quantity = 2 := by
  refine ⟨?_, ?_, ?_, ?_, ?_, ?_, ?_⟩
  · simp [BookingPosition.apply_trade, hnew, heff]
  · simp [BookingPosition.apply_trade, hnew, heff]
  · simp [BookingPosition.apply_trade, hnew, heff]
  · simp [BookingPosition.apply_trade, hnew, heff]
  · simp [BookingPosition.apply_trade, hnew, heff]
  · norm_num [BookingPosition.apply_trade, get_position_effect,
      BookingPosition.new, List.lookup]
  · norm_num [BookingPosition.apply_trade, get_position_effect,
      BookingPosition.new, List.lookup]

/-- Witness for claim C9 at a concrete input. -/
theorem close_today_effect_witness :
    ((BookingPosition.new 1 POSITION_DIRECTION.LONG).trades.lookup 7 = none) ∧
    (BookingPosition.apply_trade (BookingPosition.new 1 POSITION_DIRECTION.LONG)
        ⟨7, 1, SIDE.SELL, some POSITION_EFFECT.CLOSE_TODAY, 10, 5⟩).2 = none :=
  ⟨rfl, (close_today_effect (BookingPosition.new 1 POSITION_DIRECTION.LONG)
      ⟨7, 1, SIDE.SELL, some POSITION_EFFECT.CLOSE_TODAY, 10, 5⟩ rfl rfl).2.2.2.2.1⟩

/-- Claim C3: trade application is idempotent by execution id, both at
the ledger level (the id lands in `backward_trade_set`, so a second
application is a no-op) and directly at the position level (the id lands
in the position's `trades` cache). -/
theorem apply_trade_idempotent :
    (∀ (l : BookingModel) (t : Trade) (l1 : BookingModel),
        l.apply_trade t = (l1, none) →
        t.exec_id ∈ l1.backward_trade_set ∧ l1.apply_trade t = (l1, none)) ∧
    (∀ (p : BookingPosition) (t : Trade) (p1 : BookingPosition),
        p.apply_trade t = (p1, none) →
        (p1.trades.lookup t.exec_id).isSome ∧ p1.apply_trade t = (p1, none)) := by
  have hpos : ∀ (p : BookingPosition) (t : Trade) (p1 : BookingPosition),
      p.apply_trade t = (p1, none) →
      (p1.trades.lookup t.exec_id).isSome ∧ p1.apply_trade t = (p1, none) := by
    intro p t p1 h
    by_cases hl : (p.trades.lookup t.exec_id).isSome
    · simp only [BookingPosition.apply_trade, hl, if_true, Prod.mk.injEq, and_true] at h
      subst h
      exact ⟨hl, by simp [BookingPosition.apply_trade, hl]⟩
    · simp only [Bool.not_eq_true, Option.not_isSome, Option.isNone_iff_eq_none] at hl
      cases heff : get_position_effect t.side t.position_effect with
      | none => simp [BookingPosition.apply_trade, hl, heff] at h
      | some e =>
        cases e <;>
          · simp only [BookingPosition.apply_trade, hl, heff, Option.isSome_none,
              Bool.false_eq_true, if_false, Prod.mk.injEq, and_true] at h
            subst h
            refine ⟨by simp [List.lookup], ?_⟩
            simp [BookingPosition.apply_trade, List.lookup]
  refine ⟨?_, hpos⟩
  intro l t l1 h
  by_cases hg : t.exec_id ∈ l.backward_trade_set
  · simp only [BookingModel.apply_trade, hg, if_true, Prod.mk.injEq, and_true] at h
    subst h
    exact ⟨hg, by simp [BookingModel.apply_trade, hg]⟩
  · cases hsel : selectDirection t with
    | error e => simp [BookingModel.apply_trade, hg, hsel] at h
    | ok d =>
      simp only [BookingModel.apply_trade, hg, if_false, hsel] at h
      cases hr2 : ((getOrCreate (l.positions d) t.order_book_id d).1.apply_trade t).2 with
      | some e => simp [hr2] at h
      | none =>
        simp only [hr2, Prod.mk.injEq, and_true] at h
        subst h
        refine ⟨by simp, ?_⟩
        simp [BookingModel.apply_trade]

/-- Witness for claim C3 at a concrete input. -/
theorem apply_trade_idempotent_witness :
    (BookingModel.apply_trade
        (BookingModel.apply_trade ⟨[], [], []⟩
          ⟨1, 1, SIDE.BUY, some POSITION_EFFECT.OPEN, 100, 10⟩).1
        ⟨1, 1, SIDE.BUY, some POSITION_EFFECT.OPEN, 100, 10⟩ =
      ((BookingModel.apply_trade ⟨[], [], []⟩
          ⟨1, 1, SIDE.BUY, some POSITION_EFFECT.OPEN, 100, 10⟩).1, none)) ∧
    (BookingPosition.apply_trade
        (BookingPosition.apply_trade (BookingPosition.new 1 POSITION_DIRECTION.LONG)
          ⟨1, 1, SIDE.BUY, some POSITION_EFFECT.OPEN, 100, 10⟩).1
        ⟨1, 1, SIDE.BUY, some POSITION_EFFECT.OPEN, 100, 10⟩ =
      ((BookingPosition.apply_trade (BookingPosition.new 1 POSITION_DIRECTION.LONG)
          ⟨1, 1, SIDE.BUY, some POSITION_EFFECT.OPEN, 100, 10⟩).1, none)) :=
  ⟨(apply_trade_idempotent.1 ⟨[], [], []⟩
      ⟨1, 1, SIDE.BUY, some POSITION_EFFECT.OPEN, 100, 10⟩ _ rfl).2,
   (apply_trade_idempotent.2 (BookingPosition.new 1 POSITION_DIRECTION.LONG)
      ⟨1, 1, SIDE.BUY, some POSITION_EFFECT.OPEN, 100, 10⟩ _ rfl).2⟩

/-- Concrete data proxy for the C4 settlement example: no split, a
non-futures instrument, prior close `123`. -/
def c4dp : DataProxy :=
  ⟨fun d => d + 1, fun d => d - 1, fun _ _ => none, fun _ => ⟨none, "CS"⟩,
    fun _ _ => 0, fun _ _ => 123⟩

/-- Concrete position for the C4 settlement example. -/
def c4p : BookingPosition :=
  { BookingPosition.new 1 POSITION_DIRECTION.LONG with today_quantity := 7, avg_price := 50 }

/-- Claim C4: `apply_settlement` rolls `today_quantity` into
`old_quantity`, snapshots the result into `logical_old_quantity`, zeroes
`today_quantity` and clears the trade cache; with no split in effect
`old_quantity` ends at the rolled value, `avg_price` is untouched and
`prev_settlement_price` is refreshed from the provider. In particular
`old_quantity = 0, today_quantity = 7, avg_price = 50` settles to
`old_quantity = 7, today_quantity = 0, logical_old_quantity = 7`, an
empty trade cache and the provider's refreshed price `123`. -/
theorem apply_settlement_rollover (dp : DataProxy) (p : BookingPosition) (dt : Nat)
    (hsplit : dp.get_split_by_ex_date p.order_book_id (dp.get_next_trading_date dt) = none) :
    (p.apply_settlement dp dt).old_quantity = p.old_quantity + p.today_quantity ∧
    (p.apply_settlement dp dt).logical_old_quantity = p.old_quantity + p.today_quantity ∧
    (p.apply_settlement dp dt).today_quantity = 0 ∧
    (p.apply_settlement dp dt).trades = [] ∧
    (p.apply_settlement dp dt).avg_price = p.avg_price ∧
    ((p.apply_settlement dp dt).prev_settlement_price =
      if (dp.instruments p.order_book_id).type == "Future" then
        dp.get_settle_price p.order_book_id dt
      else dp.history_close p.order_book_id dt) ∧
    (c4p.apply_settlement c4dp 5).old_quantity = 7 ∧
    (c4p.apply_settlement c4dp 5).today_quantity = 0 ∧
    (c4p.apply_settlement c4dp 5).logical_old_quantity = 7 ∧
    (c4p.apply_settlement c4dp 5).trades = [] ∧
    (c4p.apply_settlement c4dp 5).avg_price = 50 ∧
    (c4p.apply_settlement c4dp 5).prev_settlement_price = 123 := by
  refine ⟨?_, ?_, ?_, ?_, ?_, ?_, ?_, ?_, ?_, ?_, ?_, ?_⟩ <;>
    · norm_num [BookingPosition.apply_settlement, hsplit, c4p, c4dp, BookingPosition.new]
      try decide

/-- Witness for claim C4 at a concrete input. -/
theorem apply_settlement_rollover_witness :
    c4dp.get_split_by_ex_date c4p.order_book_id (c4dp.get_next_trading_date 5) = none ∧
    (c4p.apply_settlement c4dp 5).old_quantity = c4p.old_quantity + c4p.today_quantity :=
  ⟨rfl, (apply_settlement_rollover c4dp c4p 5 rfl).1⟩

theorem lookup_cons_ne {β : Type} {k k1 : Nat} {v : β} {tl : List (Nat × β)}
    (h : k ≠ k1) : ((k1, v) :: tl).lookup k = tl.lookup k := by
  have hbeq : (k == k1) = false := by simpa using h
  simp [List.lookup, hbeq]

theorem settleBucket_cons (dp : DataProxy) (dt : Nat) (k1 : Nat) (p : BookingPosition)
    (tl : List (Nat × BookingPosition)) :
    settleBucket dp dt ((k1, p) :: tl) =
      if p.is_de_listed dp dt || p.quantity == 0 then settleBucket dp dt tl
      else (k1, p.apply_settlement dp dt) :: settleBucket dp dt tl := by
  simp only [settleBucket, List.filterMap_cons]
  by_cases hdel : (p.is_de_listed dp dt || p.quantity == 0) = true
  · rw [if_pos hdel, if_pos hdel]
  · rw [if_neg hdel, if_neg hdel]

theorem mem_fst_settleBucket (dp : DataProxy) (dt : Nat)
    (b : List (Nat × BookingPosition)) (k : Nat)
    (h : k ∈ (settleBucket dp dt b).map Prod.fst) : k ∈ b.map Prod.fst := by
  induction b with
  | nil => simp [settleBucket] at h
  | cons hd tl ih =>
    obtain ⟨k1, p⟩ := hd
    rw [settleBucket_cons] at h
    by_cases hdel : (p.is_de_listed dp dt || p.quantity == 0) = true
    · rw [if_pos hdel] at h
      simp only [List.map_cons, List.mem_cons]
      exact Or.inr (ih h)
    · rw [if_neg hdel] at h
      simp only [List.map_cons, List.mem_cons] at h ⊢
      rcases h with h | h
      · exact Or.inl h
      · exact Or.inr (ih h)

theorem lookup_settleBucket (dp : DataProxy) (dt : Nat)
    (b : List (Nat × BookingPosition)) (hnd : (b.map Prod.fst).Nodup) (k : Nat) :
    (settleBucket dp dt b).lookup k =
      match b.lookup k with
      | none => none
      | some p =>
        if p.is_de_listed dp dt || p.quantity == 0 then none
        else some (p.apply_settlement dp dt) := by
  induction b with
  | nil => rfl
  | cons hd tl ih =>
    obtain ⟨k1, p⟩ := hd
    simp only [List.map_cons, List.nodup_cons] at hnd
    have htl0 := ih hnd.2
    rw [settleBucket_cons]
    by_cases hk : k = k1
    · subst hk
      have htl : (settleBucket dp dt tl).lookup k = none :=
        lookup_none_of_not_mem_fst _ k fun hc => hnd.1 (mem_fst_settleBucket dp dt tl k hc)
      by_cases hdl : p.is_de_listed dp dt = true
      · simp [hdl, htl, lookup_cons_self]
      · by_cases hq : p.quantity = 0
        · simp [hdl, hq, htl, lookup_cons_self]
        · simp [hdl, hq, htl, lookup_cons_self]
    · by_cases hdl : p.is_de_listed dp dt = true
      · simp [hdl, lookup_cons_ne hk, htl0]
      · by_cases hq : p.quantity = 0
        · simp [hq, hdl, lookup_cons_ne hk, htl0]
        · simp [hq, hdl, lookup_cons_ne hk, htl0]

theorem positions_apply_settlement (dp : DataProxy) (l : BookingModel) (dt : Nat)
    (d : POSITION_DIRECTION) :
    (BookingModel.apply_settlement dp l dt).positions d = settleBucket dp dt (l.positions d) := by
  cases d <;> rfl

/-- Claim C5: ledger settlement removes exactly the positions that are
delisted or flat in the pre-settlement state (they never receive a
rollover), and settles every other position; removed positions are
absent afterwards. Stated as a lookup characterisation (for buckets with
distinct keys, the dict invariant) plus a membership characterisation. -/
theorem apply_settlement_eviction (dp : DataProxy) (l : BookingModel) (dt : Nat)
    (d : POSITION_DIRECTION) (hnd : ((l.positions d).map Prod.fst).Nodup) :
    (∀ k : Nat,
      ((BookingModel.apply_settlement dp l dt).positions d).lookup k =
        match (l.positions d).lookup k with
        | none => none
        | some p =>
          if p.is_de_listed dp dt || p.quantity == 0 then none
          else some (p.apply_settlement dp dt)) ∧
    (∀ (k : Nat) (p1 : BookingPosition),
      (k, p1) ∈ (BookingModel.apply_settlement dp l dt).positions d ↔
        ∃ p, (k, p) ∈ l.positions d ∧ p.is_de_listed dp dt = false ∧
          p.quantity ≠ 0 ∧ p1 = p.apply_settlement dp dt) := by
  constructor
  · intro k
    rw [positions_apply_settlement]
    exact lookup_settleBucket dp dt _ hnd k
  · intro k p1
    rw [positions_apply_settlement]
    simp only [settleBucket, List.mem_filterMap]
    constructor
    · rintro ⟨⟨k0, p⟩, hmem, hf⟩
      cases hdel : (p.is_de_listed dp dt || p.quantity == 0) <;> rw [hdel] at hf
      · simp only [Bool.false_eq_true, if_false, Option.some.injEq, Prod.mk.injEq] at hf
        simp only [Bool.or_eq_false_iff, beq_eq_false_iff_ne, ne_eq] at hdel
        obtain ⟨rfl, rfl⟩ := hf
        exact ⟨p, hmem, hdel.1, hdel.2, rfl⟩
      · simp at hf
    · rintro ⟨p, hmem, hdl, hq, rfl⟩
      exact ⟨(k, p), hmem, by simp [hdl, hq]⟩

/-- Concrete data proxy for the C5 eviction example: instrument `3` is
delisted (delisting date `4`, so already delisted on date `5`). -/
def c5dp : DataProxy :=
  ⟨fun d => d + 1, fun d => d - 1, fun _ _ => none,
    fun obid => if obid = 3 then ⟨some 4, "CS"⟩ else ⟨none, "CS"⟩,
    fun _ _ => 0, fun _ _ => 7⟩

/-- Concrete ledger for the C5 eviction example: position `1` is flat,
position `2` is live, position `3` is delisted. -/
def c5l : BookingModel :=
  ⟨[(1, BookingPosition.new 1 POSITION_DIRECTION.LONG),
    (2, { BookingPosition.new 2 POSITION_DIRECTION.LONG with
            old_quantity := 3, logical_old_quantity := 3 }),
    (3, { BookingPosition.new 3 POSITION_DIRECTION.LONG with
            old_quantity := 4, logical_old_quantity := 4 })],
   [], []⟩

/-- Witness for claim C5 at a concrete input: the flat position and the
delisted position are evicted, the live one survives. -/
theorem apply_settlement_eviction_witness :
    ((BookingModel.apply_settlement c5dp c5l 5).positions POSITION_DIRECTION.LONG).lookup 1 =
      none ∧
    ((BookingModel.apply_settlement c5dp c5l 5).positions POSITION_DIRECTION.LONG).lookup 3 =
      none ∧
    (((BookingModel.apply_settlement c5dp c5l 5).positions POSITION_DIRECTION.LONG).lookup 2).isSome = true := by
  have h1 := (apply_settlement_eviction c5dp c5l 5 POSITION_DIRECTION.LONG (by decide)).1 1
  have h3 := (apply_settlement_eviction c5dp c5l 5 POSITION_DIRECTION.LONG (by decide)).1 3
  have h2 := (apply_settlement_eviction c5dp c5l 5 POSITION_DIRECTION.LONG (by decide)).1 2
  have e1 : (c5l.positions POSITION_DIRECTION.LONG).lookup 1 =
      some (BookingPosition.new 1 POSITION_DIRECTION.LONG) := rfl
  have e2 : (c5l.positions POSITION_DIRECTION.LONG).lookup 2 =
      some { BookingPosition.new 2 POSITION_DIRECTION.LONG with
               old_quantity := 3, logical_old_quantity := 3 } := rfl
  have e3 : (c5l.positions POSITION_DIRECTION.LONG).lookup 3 =
      some { BookingPosition.new 3 POSITION_DIRECTION.LONG with
               old_quantity := 4, logical_old_quantity := 4 } := rfl
  refine ⟨?_, ?_, ?_⟩
  · rw [h1, e1]
    norm_num [BookingPosition.is_de_listed, BookingPosition.quantity, BookingPosition.new,
      c5dp, DEFAULT_DE_LISTED_DATE]
  · rw [h3, e3]
    norm_num [BookingPosition.is_de_listed, BookingPosition.quantity, BookingPosition.new,
      c5dp, DEFAULT_DE_LISTED_DATE]
  · rw [h2, e2]
    norm_num [BookingPosition.is_de_listed, BookingPosition.quantity, BookingPosition.new,
      c5dp, DEFAULT_DE_LISTED_DATE]

/-- Concrete data proxy for the C6 counterexample: it reports a split
ratio of `0`, which the source's `if split_ratio:` guard treats as no
split at all. -/
def c6dp : DataProxy :=
  ⟨fun d => d + 1, fun d => d - 1, fun _ _ => some 0, fun _ => ⟨none, "CS"⟩,
    fun _ _ => 0, fun _ _ => 99⟩

/-- Concrete data proxy for the C6 2:1 split example. -/
def c6dp2 : DataProxy :=
  ⟨fun d => d + 1, fun d => d - 1, fun _ _ => some 2, fun _ => ⟨none, "CS"⟩,
    fun _ _ => 0, fun _ _ => 99⟩

/-- Concrete position for C6: `old_quantity = 10, avg_price = 100`. -/
def c6p : BookingPosition :=
  { BookingPosition.new 1 POSITION_DIRECTION.LONG with
      old_quantity := 10, logical_old_quantity := 10, avg_price := 100 }

/-- Counterexample to claim C6 as stated: when the provider reports the
split ratio `0`, the code leaves `old_quantity` and `avg_price`
untouched (Python truthiness treats `0` as no split), while the claim
demands `old_quantity` be multiplied by the reported ratio. -/
theorem split_adjustment_cex :
    c6dp.get_split_by_ex_date c6p.order_book_id (c6dp.get_next_trading_date 5) = some 0 ∧
    (c6p.apply_settlement c6dp 5).old_quantity = 10 ∧
    (c6p.apply_settlement c6dp 5).avg_price = 100 ∧
    ¬((c6p.apply_settlement c6dp 5).old_quantity =
        (c6p.old_quantity + c6p.today_quantity) * 0) := by
  refine ⟨rfl, ?_, ?_, ?_⟩ <;>
    norm_num [c6p, c6dp, BookingPosition.apply_settlement, BookingPosition.new]

/-- Claim C6 as amended: if the provider reports a *nonzero* split ratio
`r` for the next trading date then `old_quantity` (post-rollover) is
multiplied by `r` and `avg_price` divided by `r`, preserving their
product; if no ratio is present they are unchanged; a 2:1 split on
`old_quantity = 10, avg_price = 100` yields `20` and `50`. -/
theorem split_adjustment_amended :
    (∀ (dp : DataProxy) (p : BookingPosition) (dt : Nat) (r : ℚ),
        dp.get_split_by_ex_date p.order_book_id (dp.get_next_trading_date dt) = some r →
        r ≠ 0 →
        (p.apply_settlement dp dt).old_quantity = (p.old_quantity + p.today_quantity) * r ∧
        (p.apply_settlement dp dt).avg_price = p.avg_price / r ∧
        (p.apply_settlement dp dt).old_quantity * (p.apply_settlement dp dt).avg_price =
          (p.old_quantity + p.today_quantity) * p.avg_price) ∧
    (∀ (dp : DataProxy) (p : BookingPosition) (dt : Nat),
        dp.get_split_by_ex_date p.order_book_id (dp.get_next_trading_date dt) = none →
        (p.apply_settlement dp dt).old_quantity = p.old_quantity + p.today_quantity ∧
        (p.apply_settlement dp dt).avg_price = p.avg_price) ∧
    ((c6p.apply_settlement c6dp2 5).old_quantity = 20 ∧
      (c6p.apply_settlement c6dp2 5).avg_price = 50) := by
  refine ⟨?_, ?_, ?_⟩
  · intro dp p dt r hr h0
    refine ⟨?_, ?_, ?_⟩
    · simp [BookingPosition.apply_settlement, hr, h0]
    · simp [BookingPosition.apply_settlement, hr, h0]
    · simp only [BookingPosition.apply_settlement, hr, if_neg h0]
      field_simp
      ring
  · intro dp p dt hr
    constructor <;> simp [BookingPosition.apply_settlement, hr]
  · constructor <;>
      norm_num [c6p, c6dp2, BookingPosition.apply_settlement, BookingPosition.new]

/-- Witness for the amended claim C6 at a concrete input. -/
theorem split_adjustment_amended_witness :
    (c6p.apply_settlement c6dp2 5).old_quantity =
      (c6p.old_quantity + c6p.today_quantity) * 2 :=
  (split_adjustment_amended.1 c6dp2 c6p 5 2 rfl (by norm_num)).1

/-- Concrete data proxy for C10: a 2:1 split. -/
def c10dp : DataProxy :=
  ⟨fun d => d + 1, fun d => d - 1, fun _ _ => some 2, fun _ => ⟨none, "CS"⟩,
    fun _ _ => 0, fun _ _ => 99⟩

/-- Concrete nonzero position for the amended claim C10. -/
def c10p : BookingPosition :=
  { BookingPosition.new 1 POSITION_DIRECTION.LONG with
      old_quantity := 10, logical_old_quantity := 10, avg_price := 100 }

/-- Counterexample to claim C10 as stated: on a position with
pre-settlement quantity `0`, a split ratio of `2 ≠ 1` still leaves
`logical_old_quantity = old_quantity` (both `0`), contradicting the
claim's assertion that `r ≠ 1` forces the equation to be violated. -/
theorem logical_baseline_cex :
    c10dp.get_split_by_ex_date 1 (c10dp.get_next_trading_date 5) = some 2 ∧
    (2 : ℚ) ≠ 1 ∧
    ((BookingPosition.new 1 POSITION_DIRECTION.LONG).apply_settlement c10dp 5).logical_old_quantity =
      ((BookingPosition.new 1 POSITION_DIRECTION.LONG).apply_settlement c10dp 5).old_quantity := by
  refine ⟨rfl, by norm_num, ?_⟩
  norm_num [BookingPosition.apply_settlement, BookingPosition.new, c10dp]

/-- Claim C10 as amended: under a reported nonzero split ratio `r`,
`logical_old_quantity` ends at the pre-settlement quantity `q` while
`old_quantity` ends at `q * r` (the PnL baseline is assigned before the
split multiplication and is not split-adjusted); hence for `r ≠ 1` and
`q ≠ 0` the post-settlement state violates
`logical_old_quantity = old_quantity`. -/
theorem logical_baseline_amended :
    ∀ (dp : DataProxy) (p : BookingPosition) (dt : Nat) (r : ℚ),
      dp.get_split_by_ex_date p.order_book_id (dp.get_next_trading_date dt) = some r →
      r ≠ 0 →
      (p.apply_settlement dp dt).logical_old_quantity = p.old_quantity + p.today_quantity ∧
      (p.apply_settlement dp dt).old_quantity = (p.old_quantity + p.today_quantity) * r ∧
      (r ≠ 1 → p.old_quantity + p.today_quantity ≠ 0 →
        (p.apply_settlement dp dt).logical_old_quantity ≠
          (p.apply_settlement dp dt).old_quantity) := by
  intro dp p dt r hr h0
  have hlog : (p.apply_settlement dp dt).logical_old_quantity =
      p.old_quantity + p.today_quantity := by
    simp [BookingPosition.apply_settlement, hr, h0]
  have hold : (p.apply_settlement dp dt).old_quantity =
      (p.old_quantity + p.today_quantity) * r := by
    simp [BookingPosition.apply_settlement, hr, h0]
  refine ⟨hlog, hold, ?_⟩
  intro hr1 hq heq
  rw [hlog, hold] at heq
  exact hr1 (mul_left_cancel₀ hq (by rw [mul_one]; exact heq)).symm

/-- Witness for the amended claim C10 at a concrete input. -/
theorem logical_baseline_amended_witness :
    (c10p.apply_settlement c10dp 5).logical_old_quantity ≠
      (c10p.apply_settlement c10dp 5).old_quantity :=
  (logical_baseline_amended c10dp c10p 5 2 rfl (by norm_num)).2.2 (by norm_num)
    (by norm_num [c10p, BookingPosition.new])

theorem positions_setBucket_self (l : BookingModel) (d : POSITION_DIRECTION)
    (b : List (Nat × BookingPosition)) : (l.setBucket d b).positions d = b := by
  cases d <;> rfl

theorem positions_setBucket_other (l : BookingModel) (d : POSITION_DIRECTION)
    (b : List (Nat × BookingPosition)) :
    (l.setBucket d b).positions d.other = l.positions d.other := by
  cases d <;> rfl

theorem positions_mk_backward (l : BookingModel) (v : List Nat) (d : POSITION_DIRECTION) :
    (BookingModel.mk l.long_positions l.short_positions v).positions d = l.positions d := by
  cases d <;> rfl

theorem lookup_updateBucket (b : List (Nat × BookingPosition)) (k : Nat)
    (p : BookingPosition) (h : (b.lookup k).isSome = true) :
    (updateBucket b k p).lookup k = some p := by
  induction b with
  | nil => simp [List.lookup] at h
  | cons hd tl ih =>
    obtain ⟨k1, v⟩ := hd
    by_cases hk : k = k1
    · subst hk
      simp only [updateBucket, List.map_cons, if_pos rfl]
      exact lookup_cons_self k p _
    · have hk1 : ¬k1 = k := fun hc => hk hc.symm
      rw [lookup_cons_ne hk] at h
      simp only [updateBucket, List.map_cons, if_neg hk1]
      rw [lookup_cons_ne hk]
      simpa [updateBucket] using ih h

theorem getOrCreate_lookup_isSome (b : List (Nat × BookingPosition)) (k : Nat)
    (d : POSITION_DIRECTION) : (((getOrCreate b k d).2).lookup k).isSome = true := by
  unfold getOrCreate
  cases hb : b.lookup k with
  | none => simp [lookup_cons_self]
  | some p => simp [hb]

/-- The routing table exactly as claim C7 states it, written
independently of the source's if/elif chain, for comparison with
`selectDirection`. -/
def claimRoute (t : Trade) : Option POSITION_DIRECTION :=
  match t.position_effect, t.side with
  | some POSITION_EFFECT.OPEN, SIDE.BUY => some POSITION_DIRECTION.LONG
  | some POSITION_EFFECT.OPEN, SIDE.SELL => some POSITION_DIRECTION.SHORT
  | some POSITION_EFFECT.CLOSE, SIDE.BUY => some POSITION_DIRECTION.SHORT
  | some POSITION_EFFECT.CLOSE_TODAY, SIDE.BUY => some POSITION_DIRECTION.SHORT
  | some POSITION_EFFECT.CLOSE, SIDE.SELL => some POSITION_DIRECTION.LONG
  | some POSITION_EFFECT.CLOSE_TODAY, SIDE.SELL => some POSITION_DIRECTION.LONG
  | none, _ => some POSITION_DIRECTION.LONG
  | _, _ => none

/-- Claim C7: a fresh trade is routed to exactly one bucket following
the OPEN/CLOSE/CLOSE_TODAY × BUY/SELL table (no explicit effect always
selects the LONG bucket): the opposite bucket is untouched and the
selected bucket holds the traded position under the trade's instrument
id; inside a bucket the effect inference maps BUY to OPEN and SELL to
CLOSE. -/
theorem trade_routing (l : BookingModel) (t : Trade) (d : POSITION_DIRECTION)
    (hgate : t.exec_id ∉ l.backward_trade_set)
    (hd : claimRoute t = some d) :
    selectDirection t = Except.ok d ∧
    (l.apply_trade t).1.positions d.other = l.positions d.other ∧
    ((l.apply_trade t).1.positions d).lookup t.order_book_id =
      some ((getOrCreate (l.positions d) t.order_book_id d).1.apply_trade t).1 ∧
    get_position_effect SIDE.BUY none = some POSITION_EFFECT.OPEN ∧
    get_position_effect SIDE.SELL none = some POSITION_EFFECT.CLOSE := by
  have hsel : selectDirection t = Except.ok d := by
    rcases t with ⟨eid, obid, side, eff, pr, q⟩
    cases eff with
    | none => cases side <;> simp_all [claimRoute, selectDirection]
    | some e => cases e <;> cases side <;> simp_all [claimRoute, selectDirection]
  refine ⟨hsel, ?_, ?_, rfl, rfl⟩
  · simp only [BookingModel.apply_trade, hgate, hsel, if_false]
    cases hr2 : ((getOrCreate (l.positions d) t.order_book_id d).1.apply_trade t).2 with
    | none =>
      simp only [hr2]
      rw [positions_mk_backward, positions_setBucket_other]
    | some e =>
      simp only [hr2]
      rw [positions_setBucket_other]
  · simp only [BookingModel.apply_trade, hgate, hsel, if_false]
    cases hr2 : ((getOrCreate (l.positions d) t.order_book_id d).1.apply_trade t).2 with
    | none =>
      simp only [hr2]
      rw [positions_mk_backward, positions_setBucket_self]
      exact lookup_updateBucket _ _ _ (getOrCreate_lookup_isSome _ _ _)
    | some e =>
      simp only [hr2]
      rw [positions_setBucket_self]
      exact lookup_updateBucket _ _ _ (getOrCreate_lookup_isSome _ _ _)

/-- Witness for claim C7 at a concrete input. -/
theorem trade_routing_witness :
    (BookingModel.apply_trade ⟨[], [], []⟩
        ⟨1, 1, SIDE.BUY, some POSITION_EFFECT.OPEN, 100, 10⟩).1.positions
      POSITION_DIRECTION.LONG.other = ([] : List (Nat × BookingPosition)) :=
  (trade_routing ⟨[], [], []⟩ ⟨1, 1, SIDE.BUY, some POSITION_EFFECT.OPEN, 100, 10⟩
    POSITION_DIRECTION.LONG (by simp) rfl).2.1

/-- Claim C8: malformed trades are fatal and mutate nothing: the ledger
raises on an explicit OPEN/CLOSE/CLOSE_TODAY effect with a side that is
neither BUY nor SELL, leaving the whole ledger untouched; the position
raises when the resolved effect is none of OPEN/CLOSE/CLOSE_TODAY,
returning its state unchanged; and when that raise happens through the
ledger (no effect, unknown side, routed to the LONG bucket), the
execution id is not added to `backward_trade_set`, the SHORT bucket is
untouched and the affected position is stored back unmodified (so the
execution id is not recorded in its trades cache either). -/
theorem malformed_trade_errors :
    (∀ (l : BookingModel) (t : Trade), t.exec_id ∉ l.backward_trade_set →
        t.position_effect ≠ none → t.side = SIDE.UNKNOWN →
        (l.apply_trade t).1 = l ∧ (l.apply_trade t).2.isSome = true) ∧
    (∀ (p : BookingPosition) (t : Trade), p.trades.lookup t.exec_id = none →
        get_position_effect t.side t.position_effect = none →
        (p.apply_trade t).1 = p ∧ (p.apply_trade t).2.isSome = true) ∧
    (∀ (l : BookingModel) (t : Trade), t.exec_id ∉ l.backward_trade_set →
        t.position_effect = none → t.side = SIDE.UNKNOWN →
        (getOrCreate (l.positions POSITION_DIRECTION.LONG) t.order_book_id
            POSITION_DIRECTION.LONG).1.trades.lookup t.exec_id = none →
        (l.apply_trade t).2.isSome = true ∧
        (l.apply_trade t).1.backward_trade_set = l.backward_trade_set ∧
        (l.apply_trade t).1.positions POSITION_DIRECTION.SHORT =
          l.positions POSITION_DIRECTION.SHORT ∧
        ((l.apply_trade t).1.positions POSITION_DIRECTION.LONG).lookup t.order_book_id =
          some (getOrCreate (l.positions POSITION_DIRECTION.LONG) t.order_book_id
              POSITION_DIRECTION.LONG).1) := by
  refine ⟨?_, ?_, ?_⟩
  · intro l t hg he hs
    have hsel : selectDirection t = Except.error "unknown side, trade" := by
      rcases t with ⟨eid, obid, side, eff, pr, q⟩
      cases eff with
      | none => simp at he
      | some e => cases e <;> simp_all [selectDirection]
    constructor <;> simp [BookingModel.apply_trade, hg, hsel]
  · intro p t hnew heff
    constructor <;> simp [BookingPosition.apply_trade, hnew, heff]
  · intro l t hg he hs hnotin
    have hsel : selectDirection t = Except.ok POSITION_DIRECTION.LONG := by
      simp [selectDirection, he]
    have heff : get_position_effect t.side t.position_effect = none := by
      simp [get_position_effect, he, hs]
    have hres : (getOrCreate (l.positions POSITION_DIRECTION.LONG) t.order_book_id
          POSITION_DIRECTION.LONG).1.apply_trade t =
        ((getOrCreate (l.positions POSITION_DIRECTION.LONG) t.order_book_id
            POSITION_DIRECTION.LONG).1, some "Unknown side when apply trade: ") := by
      simp [BookingPosition.apply_trade, hnotin, heff]
    refine ⟨?_, ?_, ?_, ?_⟩
    · simp [BookingModel.apply_trade, hg, hsel, hres]
    · simp only [BookingModel.apply_trade, hg, hsel, hres, if_false]
      rfl
    · simp only [BookingModel.apply_trade, hg, hsel, hres, if_false]
      rfl
    · simp only [BookingModel.apply_trade, hg, hsel, hres, if_false]
      rw [positions_setBucket_self]
      exact lookup_updateBucket _ _ _ (getOrCreate_lookup_isSome _ _ _)

/-- Witness for claim C8 at concrete inputs, one per error scenario. -/
theorem malformed_trade_errors_witness :
    (BookingModel.apply_trade ⟨[], [], []⟩
        ⟨1, 1, SIDE.UNKNOWN, some POSITION_EFFECT.OPEN, 0, 0⟩).1 = ⟨[], [], []⟩ ∧
    (BookingPosition.apply_trade (BookingPosition.new 1 POSITION_DIRECTION.LONG)
        ⟨1, 1, SIDE.UNKNOWN, none, 0, 0⟩).1 =
      BookingPosition.new 1 POSITION_DIRECTION.LONG ∧
    (BookingModel.apply_trade ⟨[], [], []⟩
        ⟨1, 1, SIDE.UNKNOWN, none, 0, 0⟩).2.isSome = true :=
  ⟨(malformed_trade_errors.1 ⟨[], [], []⟩ ⟨1, 1, SIDE.UNKNOWN, some POSITION_EFFECT.OPEN, 0, 0⟩
      (by simp) (by simp) rfl).1,
   (malformed_trade_errors.2.1 (BookingPosition.new 1 POSITION_DIRECTION.LONG)
      ⟨1, 1, SIDE.UNKNOWN, none, 0, 0⟩ rfl rfl).1,
   (malformed_trade_errors.2.2 ⟨[], [], []⟩ ⟨1, 1, SIDE.UNKNOWN, none, 0, 0⟩
      (by simp) rfl rfl rfl).1⟩

end Booking
